import Mathlib

/-!
Shallow embedding of `src/lib/icloud-mail-client.ts` (iCloudMailClient).

The client's methods are Promise/callback code over one IMAP connection.
We embed each method as a pure function of the inputs the IMAP library
would deliver to its callbacks (open-box error, search error, search
results, per-message parse outcome, fetch-stream error).  A method that
only ever calls `resolve` is a total function into its result type; a
method that can call `reject` returns `Except`.
-/

namespace ICMail

/-- JS truthiness test for an optional string: `undefined` and `""` are falsy. -/
def truthy : Option String → Bool
  | none => false
  | some s => s != ""

/-- JS `a || b` fallback for an optional string operand (`undefined`/`""` fall through). -/
def jsOr (a : Option String) (b : String) : String :=
  match a with
  | none => b
  | some s => if s == "" then b else s

/-- Whether `t` occurs as a contiguous sublist of the second argument. -/
def hasSubstr (t : List Char) : List Char → Bool
  | [] => t.isEmpty
  | c :: s => t.isPrefixOf (c :: s) || hasSubstr t s

/-- JS `String.prototype.includes`: `t` occurs as a substring of `s`. -/
def strIncludes (s t : String) : Bool :=
  t == "" || hasSubstr t.data s.data

/-- JS `String.prototype.trim`: strip leading and trailing whitespace. -/
def jsTrim (s : String) : String :=
  String.mk (((s.data.dropWhile Char.isWhitespace).reverse.dropWhile
    Char.isWhitespace).reverse)

/-- JS `String.prototype.toLowerCase` (ASCII range). -/
def jsToLower (s : String) : String :=
  String.mk (s.data.map Char.toLower)

/-- JS `arr.slice(-limit)` for a natural `limit`: `-0` is `0`, so `limit = 0`
yields the whole array; otherwise the last `min limit length` elements. -/
def jsSliceLast (l : List Nat) (limit : Nat) : List Nat :=
  if limit == 0 then l else l.drop (l.length - limit)

/-- The base64 alphabet, as used by Node's `Buffer.toString('base64')`. -/
def base64Alphabet : List Char :=
  "ABCDEFGHIJKLMNOPQRSTUVWXYZabcdefghijklmnopqrstuvwxyz0123456789+/".toList

/-- Character of the base64 alphabet at index `n % 64`. -/
def b64char (n : Nat) : Char :=
  base64Alphabet.getD (n % 64) 'A'

/-- Base64 encoding of a byte list (Node `Buffer.toString('base64')`). -/
def base64Encode : List Nat → String
  | [] => ""
  | [b1] =>
      String.mk [b64char (b1 / 4), b64char (b1 % 4 * 16)] ++ "=="
  | [b1, b2] =>
      String.mk [b64char (b1 / 4), b64char (b1 % 4 * 16 + b2 / 16),
                 b64char (b2 % 16 * 4)] ++ "="
  | b1 :: b2 :: b3 :: rest =>
      String.mk [b64char (b1 / 4), b64char (b1 % 4 * 16 + b2 / 16),
                 b64char (b2 % 16 * 4 + b3 / 64), b64char (b3 % 64)] ++
        base64Encode rest

/-! ## Data model -/

/-- A mailparser address field: `undefined`, one `AddressObject`, or an array of
them.  Only the `.text` of each address object is ever read, so we keep only
those texts. -/
inductive AddrField where
  | absent
  | one (text : String)
  | many (texts : List String)
deriving DecidableEq, Repr

/-- `getEmailText` from `getMessages`/`searchMessages`: `''` when absent,
`', '`-join of the texts of an array, the text otherwise. -/
def getEmailText : AddrField → String
  | .absent => ""
  | .one t => t
  | .many ts => String.intercalate ", " ts

/-- The `to`-field handling: absent gives `[]`, an array maps `getEmailText`
over the elements, a single object gives a one-element list. -/
def addrToList : AddrField → List String
  | .absent => []
  | .one t => [t]
  | .many ts => ts

/-- A mailparser attachment as the client reads it: optional filename and
content type, optional size, raw content bytes. -/
structure RawAttachment where
  filename : Option String
  contentType : Option String
  size : Option Nat
  content : List Nat
deriving DecidableEq, Repr

/-- The fields of a mailparser `ParsedMail` that the client reads.  `date`
and times are abstracted to `Nat`. -/
structure ParsedMail where
  messageId : Option String := none
  fromAddr : AddrField := .absent
  toAddr : AddrField := .absent
  subject : Option String := none
  text : Option String := none
  html : Option String := none
  date : Option Nat := none
  attachments : List RawAttachment := []
deriving DecidableEq, Repr

/-- `Attachment` of an `EmailMessage` (defaults already applied). -/
structure Attachment where
  filename : String
  contentType : String
  size : Nat
  data : List Nat
deriving DecidableEq, Repr

/-- `EmailMessage` (the spec's NormalizedMessage).  The source calls the
sender field `from`, a Lean keyword, hence `fromAddr` here. -/
structure EmailMessage where
  id : String
  fromAddr : String
  toAddrs : List String
  subject : String
  body : String
  date : Nat
  flags : List String
  attachments : Option (List Attachment)
deriving DecidableEq, Repr

/-- Uniform `{status, message}` envelope returned by the mutation operations. -/
structure OperationResult where
  status : String
  message : String
deriving DecidableEq, Repr

/-- `SearchOptions` with the defaults `searchMessages` destructures. -/
structure SearchOptions where
  query : Option String := none
  mailbox : String := "INBOX"
  limit : Nat := 10
  dateFrom : Option String := none
  dateTo : Option String := none
  fromEmail : Option String := none
  unreadOnly : Bool := false
deriving Repr

/-- A protocol search term as pushed onto `searchCriteria` in `searchMessages`. -/
inductive SearchTerm where
  | unseen
  | since (d : Nat)
  | before (d : Nat)
  | fromAddr (e : String)
  | orSubjectBody (q : String)
  | all
deriving DecidableEq, Repr

/-- `OrganizationRule.condition`. -/
structure RuleCondition where
  fromContains : Option String := none
  subjectContains : Option String := none
deriving DecidableEq, Repr

/-- `OrganizationRule.action`. -/
structure RuleAction where
  moveToMailbox : String
deriving DecidableEq, Repr

/-- `OrganizationRule`. -/
structure OrganizationRule where
  name : String
  condition : RuleCondition
  action : RuleAction
deriving DecidableEq, Repr

/-- One matched-message summary in an `autoOrganize` result entry. -/
structure MatchedSummary where
  id : String
  fromAddr : String
  subject : String
  destinationMailbox : String
deriving DecidableEq, Repr

/-- One per-rule entry of `autoOrganize`'s `results` array. -/
structure RuleResult where
  rule : String
  matchedMessages : Nat
  moved : Bool
  messages : Option (List MatchedSummary)
deriving DecidableEq, Repr

/-- `autoOrganize`'s return shape. -/
structure OrganizeResponse where
  status : String
  message : String
  results : List RuleResult
deriving DecidableEq, Repr

/-- The IMAP-side inputs one `moveMessages` call observes: the `openBox`
error, the `search(['ALL'])` error and result list, and the `move` error. -/
structure MoveWorld where
  openErr : Option String := none
  searchErr : Option String := none
  results : List Nat := []
  moveErr : Option String := none
deriving Repr

/-- `downloadAttachment`'s result shape. -/
structure DownloadAttachmentData where
  filename : String
  contentType : String
  size : Nat
  data : String
deriving DecidableEq, Repr

/-- `downloadAttachment`'s `{status, message, attachment?}` envelope. -/
structure DownloadResult where
  status : String
  message : String
  attachment : Option DownloadAttachmentData := none
deriving DecidableEq, Repr

/-! ## moveMessages (lines 488-539)

The executor only ever calls `resolve`, so the Promise never rejects:
the embedding is a total function into `OperationResult`.  The
`_messageIds` parameter is accepted but unused, exactly as in the source. -/

def moveMessages (w : MoveWorld) (_messageIds : List String)
    (sourceMailbox destinationMailbox : String) : OperationResult :=
  match w.openErr with
  | some e =>
      { status := "error"
        message := "Failed to open source mailbox '" ++ sourceMailbox ++ "': " ++ e }
  | none =>
    match w.searchErr with
    | some e =>
        { status := "error", message := "Failed to search messages: " ++ e }
    | none =>
      if w.results.isEmpty then
        { status := "error", message := "No messages found in source mailbox" }
      else
        match w.moveErr with
        | some e =>
            { status := "error", message := "Failed to move messages: " ++ e }
        | none =>
            { status := "success"
              message := "Successfully moved " ++ toString w.results.length ++
                " messages from '" ++ sourceMailbox ++ "' to '" ++
                destinationMailbox ++ "'" }

/-- The single `imap.move` command `moveMessages` issues: the full `search(['ALL'])`
result set, issued exactly when open and search succeed on a non-empty mailbox. -/
def moveMessagesMoveCall (w : MoveWorld) : Option (List Nat) :=
  match w.openErr with
  | some _ => none
  | none =>
    match w.searchErr with
    | some _ => none
    | none => if w.results.isEmpty then none else some w.results

/-! ## deleteMailbox (lines 438-486) -/

/-- The protected system mailboxes of `deleteMailbox`. -/
def systemMailboxes : List String := ["INBOX", "Sent", "Trash", "Drafts", "Junk"]

def deleteMailbox (name : String) (delBoxErr : Option String) : OperationResult :=
  if name == "" || jsTrim name == "" then
    { status := "error", message := "Mailbox name cannot be empty" }
  else
    let trimmedName := jsTrim name
    if systemMailboxes.contains trimmedName then
      { status := "error"
        message := "Cannot delete system mailbox '" ++ trimmedName ++ "'" }
    else
      match delBoxErr with
      | some e =>
          let errorMessage :=
            if strIncludes e "does not exist" then
              "Mailbox '" ++ trimmedName ++ "' does not exist"
            else if strIncludes e "not empty" then
              "Cannot delete mailbox '" ++ trimmedName ++
                "' because it contains messages. Please move or delete all messages first."
            else if strIncludes e "permission" then
              "Permission denied: Cannot delete mailbox '" ++ trimmedName ++ "'"
            else e
          { status := "error", message := errorMessage }
      | none =>
          { status := "success"
            message := "Mailbox '" ++ trimmedName ++ "' deleted successfully" }

/-- The `imap.delBox` protocol call `deleteMailbox` issues, if any: `none`
when a guard (empty/whitespace name, protected mailbox) rejects first. -/
def deleteMailboxProtocolCall (name : String) : Option String :=
  if name == "" || jsTrim name == "" then none
  else if systemMailboxes.contains (jsTrim name) then none
  else some (jsTrim name)

/-! ## The fetch-and-parse pipeline (getMessages lines 240-353,
searchMessages lines 541-694; the two bodies are verbatim identical
after the search criteria are built)

The per-message parse outcome is an oracle `parse : Nat → Option ParsedMail`
keyed by the sequence number the fetch reports: `none` means `simpleParser`
threw, in which case the `catch` logs the error and pushes nothing.  The
`attributes` event only mutates a pushed record's `flags`; no claim concerns
flags, so we take the no-attributes-delivered instance of the semantics and
`flags` keeps its initial `[]`.  `now` stands for `new Date()` in the
`date` fallback. -/

/-- Construction of one `EmailMessage` from a successful parse
(lines 285-324 / 626-665), JS `||` defaults included. -/
def buildEmailMessage (now : Nat) (seqno : Nat) (parsed : ParsedMail) : EmailMessage :=
  let attachments : List Attachment := parsed.attachments.map (fun att =>
    { filename := jsOr att.filename "unknown"
      contentType := jsOr att.contentType "application/octet-stream"
      size := att.size.getD 0
      data := att.content })
  { id := jsOr parsed.messageId (toString seqno)
    fromAddr := getEmailText parsed.fromAddr
    toAddrs := addrToList parsed.toAddr
    subject := jsOr parsed.subject ""
    body := jsOr parsed.text (jsOr parsed.html "")
    date := parsed.date.getD now
    flags := []
    attachments := if attachments.length > 0 then some attachments else none }

/-- The messages pushed by the fetch loop: each selected sequence number whose
parse succeeds contributes one record, parse failures are caught and omitted. -/
def fetchAndParse (messageIds : List Nat) (parse : Nat → Option ParsedMail)
    (now : Nat) : List EmailMessage :=
  messageIds.filterMap (fun seqno => (parse seqno).map (buildEmailMessage now seqno))

/-- `getMessages(mailbox, limit, unreadOnly)` (lines 240-353).  `openErr`,
`searchErr`, `results` and `fetchErr` are the IMAP library's answers for this
mailbox and criteria (`['UNSEEN']` when `unreadOnly`, else `['ALL']`); the
method rejects on open, search and fetch errors, hence `Except`. -/
def getMessages (mailbox : String) (limit : Nat) (unreadOnly : Bool)
    (openErr searchErr : Option String) (results : List Nat)
    (parse : Nat → Option ParsedMail) (fetchErr : Option String)
    (now : Nat) : Except String (List EmailMessage) :=
  match openErr with
  | some e => .error e
  | none =>
    match searchErr with
    | some e => .error e
    | none =>
      if results.isEmpty then .ok []
      else
        let messageIds := jsSliceLast results limit
        match fetchErr with
        | some e => .error e
        | none => .ok (fetchAndParse messageIds parse now)

/-! ## Search criteria translation (searchMessages lines 559-593) -/

/-- The `searchCriteria` list built by `searchMessages`, in push order.
`parseDate` models `new Date(string)` + the `isNaN(getTime())` validity
check: `none` is an invalid date.  TS truthiness guards (`if (dateFrom)`
etc.) skip absent and empty-string fields. -/
def buildSearchCriteria (parseDate : String → Option Nat)
    (o : SearchOptions) : List SearchTerm :=
  let c : List SearchTerm := []
  let c := if o.unreadOnly then c ++ [.unseen] else c
  let c := if truthy o.dateFrom then
      match parseDate (o.dateFrom.getD "") with
      | some d => c ++ [.since d]
      | none => c
    else c
  let c := if truthy o.dateTo then
      match parseDate (o.dateTo.getD "") with
      | some d => c ++ [.before d]
      | none => c
    else c
  let c := if truthy o.fromEmail then c ++ [.fromAddr (o.fromEmail.getD "")] else c
  let c := if truthy o.query then c ++ [.orSubjectBody (o.query.getD "")] else c
  if c.length == 0 then c ++ [.all] else c

/-- `searchMessages(options)` (lines 541-694): build the criteria, search,
then the same slice-fetch-parse pipeline as `getMessages`.  `results` is the
server's answer to `buildSearchCriteria parseDate o`. -/
def searchMessages (o : SearchOptions) (parseDate : String → Option Nat)
    (openErr searchErr : Option String) (results : List Nat)
    (parse : Nat → Option ParsedMail) (fetchErr : Option String)
    (now : Nat) : Except String (List EmailMessage) :=
  match openErr with
  | some e => .error e
  | none =>
    let _searchCriteria := buildSearchCriteria parseDate o
    match searchErr with
    | some e => .error e
    | none =>
      if results.isEmpty then .ok []
      else
        let messageIds := jsSliceLast results o.limit
        match fetchErr with
        | some e => .error e
        | none => .ok (fetchAndParse messageIds parse now)

/-! ## downloadAttachment (lines 810-936)

The executor only calls `resolve`: total into `DownloadResult`.  The fetch
walks `results` in order; a message that fails to parse is caught and skipped;
the first parsed message whose protocol `messageId` or fallback
sequence-number id matches resolves the promise (the `found` flag suppresses
all later messages); if none matched, a fetch error or the not-found message
resolves at `end`. -/

/-- Whether the message with sequence number `seqno` and parse `p` is the one
`downloadAttachment(messageId)` is looking for. -/
def attachmentTargetMatches (messageId : String) (seqno : Nat) (p : ParsedMail) : Bool :=
  p.messageId == some messageId || toString seqno == messageId

/-- JS template interpolation of a possibly-undefined string:
`${undefined}` renders "undefined", everything else renders itself. -/
def jsTemplate (a : Option String) : String :=
  match a with
  | none => "undefined"
  | some s => s

/-- Outcome once the target message is found (lines 878-909). -/
def attachmentOutcome (attachmentIndex : Nat) (p : ParsedMail) : DownloadResult :=
  if p.attachments.length == 0 then
    { status := "error", message := "No attachments found in the message" }
  else if p.attachments.length ≤ attachmentIndex then
    { status := "error"
      message := "Attachment index " ++ toString attachmentIndex ++
        " out of range. Message has " ++ toString p.attachments.length ++
        " attachments" }
  else
    let attachment := p.attachments.getD attachmentIndex
      { filename := none, contentType := none, size := none, content := [] }
    { status := "success"
      message := "Successfully downloaded attachment '" ++
        jsTemplate attachment.filename ++ "'"
      attachment := some
        { filename := jsOr attachment.filename "unknown"
          contentType := jsOr attachment.contentType "application/octet-stream"
          size := attachment.size.getD 0
          data := base64Encode attachment.content } }

def downloadAttachment (messageId : String) (attachmentIndex : Nat)
    (mailbox : String) (openErr searchErr : Option String) (results : List Nat)
    (parse : Nat → Option ParsedMail) (fetchErr : Option String) : DownloadResult :=
  match openErr with
  | some e =>
      { status := "error"
        message := "Failed to open mailbox '" ++ mailbox ++ "': " ++ e }
  | none =>
    match searchErr with
    | some e => { status := "error", message := "Failed to search messages: " ++ e }
    | none =>
      if results.isEmpty then
        { status := "error", message := "No messages found in mailbox" }
      else
        match results.find? (fun seqno =>
            match parse seqno with
            | some p => attachmentTargetMatches messageId seqno p
            | none => false) with
        | some seqno =>
            match parse seqno with
            | some p => attachmentOutcome attachmentIndex p
            | none => { status := "error", message := "unreachable" }
        | none =>
            match fetchErr with
            | some e =>
                { status := "error", message := "Failed to fetch messages: " ++ e }
            | none =>
                { status := "error"
                  message := "Message with ID '" ++ messageId ++ "' not found" }

/-! ## autoOrganize (lines 938-1062)

`autoOrganize` fetches up to 100 messages via `getMessages`, then evaluates
each rule against every fetched message.  For each rule with matches and
`dryRun = false` it awaits `this.moveMessages(...)` — whose promise always
resolves (see above), so the surrounding `try/catch` never fires and
`moved` is set to `true` regardless of the resolved `OperationResult`'s
status.  `mw i` is the IMAP world observed by the `i`-th rule's
`moveMessages` call. -/

/-- The per-message match test of the inner loop (lines 979-1006): boolean OR
across the condition fields that are present (TS-truthy), each compared
case-insensitively by substring containment. -/
def ruleMatches (rule : OrganizationRule) (message : EmailMessage) : Bool :=
  let isMatch := false
  let isMatch := if truthy rule.condition.fromContains then
      isMatch || strIncludes (jsToLower message.fromAddr)
        (jsToLower (rule.condition.fromContains.getD ""))
    else isMatch
  let isMatch := if truthy rule.condition.subjectContains then
      isMatch || strIncludes (jsToLower message.subject)
        (jsToLower (rule.condition.subjectContains.getD ""))
    else isMatch
  isMatch

/-- The matched-message summaries collected for one rule (lines 972-1006). -/
def ruleMatchedMessages (rule : OrganizationRule) (messages : List EmailMessage) :
    List MatchedSummary :=
  (messages.filter (ruleMatches rule)).map (fun m =>
    { id := m.id, fromAddr := m.fromAddr, subject := m.subject
      destinationMailbox := rule.action.moveToMailbox })

/-- One rule's `results` entry (lines 1008-1040).  When not a dry run, the
`moveMessages` promise is awaited; it always resolves, so the `catch` branch
is unreachable and `moved` becomes `true` whatever `_res.status` is. -/
def autoOrganizeEntry (messages : List EmailMessage) (sourceMailbox : String)
    (dryRun : Bool) (w : MoveWorld) (rule : OrganizationRule) : RuleResult :=
  let matchedMessages := ruleMatchedMessages rule messages
  if matchedMessages.length > 0 then
    let moved :=
      if !dryRun then
        let _res := moveMessages w (matchedMessages.map (fun m => m.id))
          sourceMailbox rule.action.moveToMailbox
        true
      else false
    { rule := rule.name, matchedMessages := matchedMessages.length
      moved := !dryRun && moved, messages := some matchedMessages }
  else
    { rule := rule.name, matchedMessages := 0, moved := false, messages := none }

def autoOrganize (rules : List OrganizationRule) (sourceMailbox : String)
    (dryRun : Bool) (openErr searchErr : Option String) (results : List Nat)
    (parse : Nat → Option ParsedMail) (fetchErr : Option String) (now : Nat)
    (mw : Nat → MoveWorld) : OrganizeResponse :=
  match getMessages sourceMailbox 100 false openErr searchErr results parse fetchErr now with
  | .error e =>
      { status := "error", message := "Failed to organize emails: " ++ e
        results := [] }
  | .ok messages =>
    let entries := rules.enum.map (fun p =>
      autoOrganizeEntry messages sourceMailbox dryRun (mw p.1) p.2)
    let totalMatched := entries.foldl (fun sum r => sum + r.matchedMessages) 0
    { status := "success"
      message :=
        if dryRun then
          "Dry run completed. Found " ++ toString totalMatched ++
            " messages matching organization rules"
        else
          "Organization completed. Processed " ++ toString totalMatched ++
            " messages"
      results := entries }

/-- The `moveMessages` invocations `autoOrganize` issues, in order: one per
rule with at least one match when `dryRun = false`, with the matched ids, the
source mailbox and the rule's destination; none on a dry run. -/
def autoOrganizeMoveCalls (rules : List OrganizationRule) (sourceMailbox : String)
    (dryRun : Bool) (openErr searchErr : Option String) (results : List Nat)
    (parse : Nat → Option ParsedMail) (fetchErr : Option String) (now : Nat) :
    List (List String × String × String) :=
  match getMessages sourceMailbox 100 false openErr searchErr results parse fetchErr now with
  | .error _ => []
  | .ok messages =>
    rules.filterMap (fun rule =>
      let matchedMessages := ruleMatchedMessages rule messages
      if matchedMessages.length > 0 && !dryRun then
        some (matchedMessages.map (fun m => m.id), sourceMailbox,
          rule.action.moveToMailbox)
      else none)

/-! ## Shared lemmas -/

/-- A `filterMap` whose function is total (`some ∘ g`) on the list is a `map`. -/
theorem filterMap_eq_map_of_some {α β : Type} (f : α → Option β) (g : α → β)
    (l : List α) (h : ∀ x ∈ l, f x = some (g x)) : l.filterMap f = l.map g := by
  induction l with
  | nil => rfl
  | cons a t ih =>
      rw [List.filterMap_cons, h a (List.mem_cons_self a t), List.map_cons,
        ih (fun x hx => h x (List.mem_cons_of_mem a hx))]

/-! ## Claims -/

/-- C9: on a source mailbox that opens successfully, searches successfully
and contains zero messages, `moveMessages` resolves `status:"error"` with
message "No messages found in source mailbox" — an error, not a success
with zero moves — and on every input `moveMessages` resolves an
`OperationResult` with status "success" or "error", never rejecting. -/
theorem C9_moveMessages_empty_source (w : MoveWorld) (ids : List String)
    (src dst : String) (hopen : w.openErr = none) (hsearch : w.searchErr = none)
    (hempty : w.results = []) :
    moveMessages w ids src dst =
      { status := "error", message := "No messages found in source mailbox" } ∧
    ∀ (w' : MoveWorld) (ids' : List String) (src' dst' : String),
      (moveMessages w' ids' src' dst').status = "success" ∨
      (moveMessages w' ids' src' dst').status = "error" := by
  constructor
  · simp [moveMessages, hopen, hsearch, hempty]
  · intro w' ids' src' dst'
    unfold moveMessages
    rcases w'.openErr with _ | e1
    · rcases w'.searchErr with _ | e2
      · by_cases hres : w'.results.isEmpty
        · simp [hres]
        · rcases w'.moveErr with _ | e3 <;> simp [hres]
      · simp
    · simp

/-- Witness for C9 at the empty default world. -/
theorem C9_moveMessages_empty_source_witness :
    ({ } : MoveWorld).openErr = none ∧ ({ } : MoveWorld).results = [] ∧
    moveMessages { } ["id1"] "INBOX" "Archive" =
      { status := "error", message := "No messages found in source mailbox" } :=
  ⟨rfl, rfl, (C9_moveMessages_empty_source { } ["id1"] "INBOX" "Archive"
    rfl rfl rfl).1⟩

/-- C2: when the source mailbox opens and searches successfully and is
non-empty, `moveMessages` is independent of the supplied `messageIds` list,
issues exactly one bulk `move` of the full `ALL` search result set, and on a
successful move reports the count of all messages in the mailbox. -/
theorem C2_moveMessages_ignores_ids (w : MoveWorld) (ids ids' : List String)
    (src dst : String) (hopen : w.openErr = none) (hsearch : w.searchErr = none)
    (hne : w.results ≠ []) :
    moveMessages w ids src dst = moveMessages w ids' src dst ∧
    moveMessagesMoveCall w = some w.results ∧
    (w.moveErr = none →
      moveMessages w ids src dst =
        { status := "success"
          message := "Successfully moved " ++ toString w.results.length ++
            " messages from '" ++ src ++ "' to '" ++ dst ++ "'" }) := by
  refine ⟨rfl, ?_, ?_⟩
  · simp [moveMessagesMoveCall, hopen, hsearch, hne]
  · intro hmv
    simp [moveMessages, hopen, hsearch, hne, hmv]

/-- Witness for C2 at a two-message mailbox and two different id lists. -/
theorem C2_moveMessages_ignores_ids_witness :
    (⟨none, none, [4, 9], none⟩ : MoveWorld).results ≠ [] ∧
    moveMessagesMoveCall ⟨none, none, [4, 9], none⟩ = some [4, 9] ∧
    moveMessages ⟨none, none, [4, 9], none⟩ ["a"] "INBOX" "Archive" =
      { status := "success"
        message := "Successfully moved 2 messages from 'INBOX' to 'Archive'" } := by
  have h := C2_moveMessages_ignores_ids ⟨none, none, [4, 9], none⟩ ["a"] []
    "INBOX" "Archive" rfl rfl (by decide)
  exact ⟨by decide, h.2.1, (h.2.2 rfl).trans (by decide)⟩

/-- C7: a name that is empty, whitespace-only, or whose trimmed form is a
protected system mailbox makes `deleteMailbox` return `status:"error"`
without issuing any protocol call; past those guards, a protocol error whose
message contains "does not exist", "not empty" or "permission" is mapped to
the corresponding specific user-facing message (in that checking order). -/
theorem C7_deleteMailbox_guards (name : String) (delErr : Option String) :
    (jsTrim name = "" →
      deleteMailbox name delErr =
        { status := "error", message := "Mailbox name cannot be empty" } ∧
      deleteMailboxProtocolCall name = none) ∧
    (systemMailboxes.contains (jsTrim name) = true →
      deleteMailbox name delErr =
        { status := "error"
          message := "Cannot delete system mailbox '" ++ jsTrim name ++ "'" } ∧
      deleteMailboxProtocolCall name = none) ∧
    (jsTrim name ≠ "" → systemMailboxes.contains (jsTrim name) = false →
      ∀ e, delErr = some e →
        (strIncludes e "does not exist" = true →
          deleteMailbox name delErr =
            { status := "error"
              message := "Mailbox '" ++ jsTrim name ++ "' does not exist" }) ∧
        (strIncludes e "does not exist" = false →
         strIncludes e "not empty" = true →
          deleteMailbox name delErr =
            { status := "error"
              message := "Cannot delete mailbox '" ++ jsTrim name ++
                "' because it contains messages. Please move or delete all messages first." }) ∧
        (strIncludes e "does not exist" = false →
         strIncludes e "not empty" = false →
         strIncludes e "permission" = true →
          deleteMailbox name delErr =
            { status := "error"
              message := "Permission denied: Cannot delete mailbox '" ++
                jsTrim name ++ "'" })) := by
  refine ⟨?_, ?_, ?_⟩
  · intro htrim
    constructor <;> simp [deleteMailbox, deleteMailboxProtocolCall, htrim]
  · intro hsys
    have htrim : jsTrim name ≠ "" := by
      intro h
      rw [h] at hsys
      simp [systemMailboxes] at hsys
    have hname : name ≠ "" := by
      intro h
      subst h
      exact htrim rfl
    have hmem : jsTrim name ∈ systemMailboxes := by simpa using hsys
    constructor <;>
      simp [deleteMailbox, deleteMailboxProtocolCall, htrim, hname, hmem]
  · intro htrim hsys e he
    have hname : name ≠ "" := by
      intro h
      subst h
      exact htrim rfl
    subst he
    refine ⟨?_, ?_, ?_⟩ <;> intros <;>
      simp_all [deleteMailbox, htrim, hname, hsys]

/-- Witness for C7: a protected-name rejection and a mapped protocol error. -/
theorem C7_deleteMailbox_guards_witness :
    (systemMailboxes.contains (jsTrim "INBOX") = true ∧
      deleteMailbox "INBOX" none =
        { status := "error", message := "Cannot delete system mailbox 'INBOX'" } ∧
      deleteMailboxProtocolCall "INBOX" = none) ∧
    (jsTrim "Old" ≠ "" ∧ strIncludes "Mailbox does not exist" "does not exist" = true ∧
      deleteMailbox "Old" (some "Mailbox does not exist") =
        { status := "error", message := "Mailbox 'Old' does not exist" }) := by
  constructor
  · have h := (C7_deleteMailbox_guards "INBOX" none).2.1 (by decide)
    exact ⟨by decide, h.1.trans (by decide), h.2⟩
  · have h := ((C7_deleteMailbox_guards "Old" (some "Mailbox does not exist")).2.2
      (by decide) (by decide) "Mailbox does not exist" rfl).1 (by decide)
    exact ⟨by decide, by decide, h.trans (by decide)⟩

set_option maxHeartbeats 1000000 in
/-- C3: the translator builds the term list in the fixed order unseen-term
(if unreadOnly), since-term (if dateFrom is present and parses), before-term
(if dateTo is present and parses), sender-term (if fromEmail present),
OR(subject, body)-term (if query present); a present date field whose parse
is invalid contributes no term and raises no error; and when no field
produced a term the output is exactly the single catch-all ALL term.
Presence follows the source's JS truthiness guards (`truthy`). -/
theorem C3_buildSearchCriteria_fixed_order (parseDate : String → Option Nat)
    (o : SearchOptions) :
    buildSearchCriteria parseDate o =
      (let unseenTerms : List SearchTerm :=
        if o.unreadOnly then [.unseen] else []
      let sinceTerms : List SearchTerm :=
        if truthy o.dateFrom then
          match parseDate (o.dateFrom.getD "") with
          | some d => [.since d]
          | none => []
        else []
      let beforeTerms : List SearchTerm :=
        if truthy o.dateTo then
          match parseDate (o.dateTo.getD "") with
          | some d => [.before d]
          | none => []
        else []
      let senderTerms : List SearchTerm :=
        if truthy o.fromEmail then [.fromAddr (o.fromEmail.getD "")] else []
      let queryTerms : List SearchTerm :=
        if truthy o.query then [.orSubjectBody (o.query.getD "")] else []
      let terms :=
        unseenTerms ++ sinceTerms ++ beforeTerms ++ senderTerms ++ queryTerms
      if terms.length == 0 then [.all] else terms) := by
  simp only [buildSearchCriteria]
  repeat' split
  all_goals try rfl
  all_goals simp_all

/-- A concrete parse fixture used by the witnesses. -/
def testParsed (seqno : Nat) : ParsedMail :=
  { messageId := some ("m" ++ toString seqno)
    fromAddr := .one "alice@example.com"
    toAddr := .one "bob@example.com"
    subject := some "Weekly offer"
    text := some "hello"
    date := some 5 }

/-- C4: with a successful open, search and fetch, `0 < N ≤` match count, and
every selected message parsing successfully, `getMessages(mailbox, N)`
returns exactly `N` messages, built in order from the last `N` identifiers
of the matched set (`drop (length - N)`), not the first `N`. -/
theorem C4_getMessages_last_n (mailbox : String) (unreadOnly : Bool)
    (n : Nat) (results : List Nat) (parse : Nat → Option ParsedMail)
    (pm : Nat → ParsedMail) (now : Nat)
    (hn : 0 < n) (hle : n ≤ results.length)
    (hparse : ∀ seqno ∈ jsSliceLast results n, parse seqno = some (pm seqno)) :
    getMessages mailbox n unreadOnly none none results parse none now =
      .ok ((results.drop (results.length - n)).map
        (fun seqno => buildEmailMessage now seqno (pm seqno))) ∧
    jsSliceLast results n = results.drop (results.length - n) ∧
    ((results.drop (results.length - n)).map
      (fun seqno => buildEmailMessage now seqno (pm seqno))).length = n := by
  have hne : results ≠ [] := List.ne_nil_of_length_pos (lt_of_lt_of_le hn hle)
  have hslice : jsSliceLast results n = results.drop (results.length - n) := by
    simp [jsSliceLast, Nat.pos_iff_ne_zero.mp hn]
  refine ⟨?_, hslice, ?_⟩
  · rw [hslice] at hparse
    simp only [getMessages, hne, List.isEmpty_eq_false.mpr hne, Bool.false_eq_true,
      if_false, fetchAndParse, hslice]
    rw [filterMap_eq_map_of_some _
      (fun seqno => buildEmailMessage now seqno (pm seqno)) _
      (fun x hx => by rw [hparse x hx]; rfl)]
  · simp [Nat.sub_sub_self hle]

/-- Witness for C4 on a three-message mailbox with `N = 2`. -/
theorem C4_getMessages_last_n_witness :
    (0 < 2 ∧ 2 ≤ ([1, 2, 3] : List Nat).length) ∧
    getMessages "INBOX" 2 false none none [1, 2, 3]
        (fun s => some (testParsed s)) none 7 =
      .ok [buildEmailMessage 7 2 (testParsed 2),
           buildEmailMessage 7 3 (testParsed 3)] := by
  refine ⟨⟨by decide, by decide⟩, ?_⟩
  have h := (C4_getMessages_last_n "INBOX" false 2 [1, 2, 3]
    (fun s => some (testParsed s)) testParsed 7 (by decide) (by decide)
    (fun s _ => rfl)).1
  exact h.trans (by rfl)

/-- C5: with open, search and fetch succeeding, the batch resolves to
exactly the selected messages whose parse succeeded, in order — a message
whose parse fails is caught and omitted while the batch still resolves with
the remaining messages — and every returned record is built whole
(`buildEmailMessage`) from a successful parse. -/
theorem C5_parse_failure_dropped (mailbox : String) (limit : Nat)
    (unreadOnly : Bool) (results : List Nat) (parse : Nat → Option ParsedMail)
    (now : Nat) (hne : results ≠ []) :
    getMessages mailbox limit unreadOnly none none results parse none now =
      .ok ((jsSliceLast results limit).filterMap
        (fun seqno => (parse seqno).map (buildEmailMessage now seqno))) ∧
    ∀ m ∈ (jsSliceLast results limit).filterMap
        (fun seqno => (parse seqno).map (buildEmailMessage now seqno)),
      ∃ seqno ∈ jsSliceLast results limit, ∃ p, parse seqno = some p ∧
        m = buildEmailMessage now seqno p := by
  constructor
  · simp only [getMessages, fetchAndParse, List.isEmpty_eq_false.mpr hne,
      Bool.false_eq_true, if_false]
  · intro m hm
    rcases List.mem_filterMap.mp hm with ⟨seqno, hs, hmap⟩
    rcases Option.map_eq_some'.mp hmap with ⟨p, hp, hb⟩
    exact ⟨seqno, hs, p, hp, hb.symm⟩

/-- The C5 witness's parse oracle: message 2 of three fails to parse. -/
def c5Parse (s : Nat) : Option ParsedMail :=
  if s == 2 then none else some (testParsed s)

/-- Witness for C5: one failing parse out of three yields exactly two
records and no error. -/
theorem C5_parse_failure_dropped_witness :
    ([1, 2, 3] : List Nat) ≠ [] ∧ c5Parse 2 = none ∧
    getMessages "INBOX" 10 false none none [1, 2, 3] c5Parse none 7 =
      .ok [buildEmailMessage 7 1 (testParsed 1),
           buildEmailMessage 7 3 (testParsed 3)] ∧
    [buildEmailMessage 7 1 (testParsed 1),
     buildEmailMessage 7 3 (testParsed 3)].length = 2 := by
  refine ⟨by decide, rfl, ?_, rfl⟩
  have h := (C5_parse_failure_dropped "INBOX" 10 false [1, 2, 3] c5Parse 7
    (by decide)).1
  exact h.trans (by rfl)

/-- C10: a limit of 0 slices to the whole matched identifier set
(`slice(-0)` is `slice(0)`), so `getMessages` and `searchMessages` with
limit 0 on a mailbox with `n ≥ 1` matches (all parsing) return all `n`
matched messages rather than zero. -/
theorem C10_limit_zero_returns_all (mailbox : String) (unreadOnly : Bool)
    (o : SearchOptions) (parseDate : String → Option Nat) (results : List Nat)
    (parse : Nat → Option ParsedMail) (pm : Nat → ParsedMail) (now : Nat)
    (hne : results ≠ []) (hlim : o.limit = 0)
    (hparse : ∀ seqno ∈ results, parse seqno = some (pm seqno)) :
    jsSliceLast results 0 = results ∧
    getMessages mailbox 0 unreadOnly none none results parse none now =
      .ok (results.map (fun seqno => buildEmailMessage now seqno (pm seqno))) ∧
    searchMessages o parseDate none none results parse none now =
      .ok (results.map (fun seqno => buildEmailMessage now seqno (pm seqno))) ∧
    (results.map (fun seqno => buildEmailMessage now seqno (pm seqno))).length =
      results.length := by
  have hmap : fetchAndParse results parse now =
      results.map (fun seqno => buildEmailMessage now seqno (pm seqno)) :=
    filterMap_eq_map_of_some _ _ _ (fun x hx => by rw [hparse x hx]; rfl)
  have hsl : jsSliceLast results 0 = results := rfl
  refine ⟨rfl, ?_, ?_, by simp⟩
  · simp only [getMessages, List.isEmpty_eq_false.mpr hne, Bool.false_eq_true,
      if_false, hsl, hmap]
  · simp only [searchMessages, List.isEmpty_eq_false.mpr hne, Bool.false_eq_true,
      if_false, hlim, hsl, hmap]

/-- Witness for C10 on a two-message mailbox. -/
theorem C10_limit_zero_returns_all_witness :
    ([4, 9] : List Nat) ≠ [] ∧
    getMessages "INBOX" 0 false none none [4, 9]
        (fun s => some (testParsed s)) none 7 =
      .ok [buildEmailMessage 7 4 (testParsed 4),
           buildEmailMessage 7 9 (testParsed 9)] ∧
    searchMessages { limit := 0 } (fun _ => none) none none [4, 9]
        (fun s => some (testParsed s)) none 7 =
      .ok [buildEmailMessage 7 4 (testParsed 4),
           buildEmailMessage 7 9 (testParsed 9)] := by
  have h := C10_limit_zero_returns_all "INBOX" false { limit := 0 }
    (fun _ => none) [4, 9] (fun s => some (testParsed s)) testParsed 7
    (by decide) rfl (fun s _ => rfl)
  exact ⟨by decide, h.2.1.trans (by rfl), h.2.2.1.trans (by rfl)⟩

/-- Field values of one `autoOrganize` rule entry: the rule's own name, the
match count over the fetched list, and the `moved` flag (`!dryRun` exactly
when there was a match, because the awaited `moveMessages` never rejects). -/
theorem autoOrganizeEntry_spec (messages : List EmailMessage) (src : String)
    (dryRun : Bool) (w : MoveWorld) (rule : OrganizationRule) :
    (autoOrganizeEntry messages src dryRun w rule).rule = rule.name ∧
    (autoOrganizeEntry messages src dryRun w rule).matchedMessages =
      (messages.filter (ruleMatches rule)).length ∧
    (0 < (messages.filter (ruleMatches rule)).length →
      (autoOrganizeEntry messages src dryRun w rule).moved = !dryRun) ∧
    ((messages.filter (ruleMatches rule)).length = 0 →
      (autoOrganizeEntry messages src dryRun w rule).moved = false) := by
  by_cases hc : 0 < (messages.filter (ruleMatches rule)).length
  · refine ⟨?_, ?_, ?_, ?_⟩
    · simp [autoOrganizeEntry, ruleMatchedMessages, hc]
    · simp [autoOrganizeEntry, ruleMatchedMessages, hc]
    · intro hp
      cases dryRun <;> simp [autoOrganizeEntry, ruleMatchedMessages, hc]
    · intro hz
      simp [hz] at hc
  · have hz : (messages.filter (ruleMatches rule)).length = 0 := by omega
    refine ⟨?_, ?_, ?_, ?_⟩ <;>
      simp [autoOrganizeEntry, ruleMatchedMessages, hz]

/-- C6: a message matches a rule iff its lowercased sender contains the
rule's lowercased `fromContains` (when that field is present) OR its
lowercased subject contains the rule's lowercased `subjectContains` (when
present); each rule's `results` entry is computed independently from the
same fetched message list (its match count depends only on that rule, so a
message may match several rules); and with `dryRun = true` every rule's
entry reports `moved = false` (a rule with matches still reporting its
nonzero match count) while no `moveMessages` mutation call is issued. -/
theorem C6_autoOrganize_rule_matching (rules : List OrganizationRule)
    (src : String) (dryRun : Bool) (results : List Nat)
    (parse : Nat → Option ParsedMail) (now : Nat) (mw : Nat → MoveWorld)
    (messages : List EmailMessage)
    (hmsg : getMessages src 100 false none none results parse none now =
      .ok messages) :
    (∀ rule m, ruleMatches rule m = true ↔
      (truthy rule.condition.fromContains = true ∧
        strIncludes (jsToLower m.fromAddr)
          (jsToLower (rule.condition.fromContains.getD "")) = true) ∨
      (truthy rule.condition.subjectContains = true ∧
        strIncludes (jsToLower m.subject)
          (jsToLower (rule.condition.subjectContains.getD "")) = true)) ∧
    (autoOrganize rules src dryRun none none results parse none now
      mw).results.length = rules.length ∧
    (∀ i (h : i < rules.length),
      ∃ r, (autoOrganize rules src dryRun none none results parse none now
          mw).results[i]? = some r ∧
        r.rule = (rules.get ⟨i, h⟩).name ∧
        r.matchedMessages =
          (messages.filter (ruleMatches (rules.get ⟨i, h⟩))).length ∧
        (0 < r.matchedMessages → r.moved = !dryRun) ∧
        (r.matchedMessages = 0 → r.moved = false)) ∧
    (dryRun = true →
      (∀ r ∈ (autoOrganize rules src dryRun none none results parse none now
          mw).results, r.moved = false) ∧
      autoOrganizeMoveCalls rules src dryRun none none results parse none
        now = []) := by
  refine ⟨?_, ?_, ?_, ?_⟩
  · intro rule m
    unfold ruleMatches
    cases hf : truthy rule.condition.fromContains <;>
      cases hs : truthy rule.condition.subjectContains <;> simp
  · simp [autoOrganize, hmsg]
  · intro i h
    have hs := autoOrganizeEntry_spec messages src dryRun (mw i) (rules.get ⟨i, h⟩)
    refine ⟨autoOrganizeEntry messages src dryRun (mw i) (rules.get ⟨i, h⟩),
      ?_, hs.1, hs.2.1, ?_, ?_⟩
    · simp only [autoOrganize, hmsg]
      rw [List.getElem?_map, List.getElem?_enum, List.getElem?_eq_getElem h]
      rfl
    · intro hp
      rw [hs.2.1] at hp
      exact hs.2.2.1 hp
    · intro hz
      rw [hs.2.1] at hz
      exact hs.2.2.2 hz
  · intro hdry
    subst hdry
    constructor
    · intro r hr
      simp only [autoOrganize, hmsg, List.mem_map] at hr
      rcases hr with ⟨p, _, hp⟩
      have hs := autoOrganizeEntry_spec messages src true (mw p.1) p.2
      rw [← hp]
      by_cases hc : 0 < (messages.filter (ruleMatches p.2)).length
      · simpa using hs.2.2.1 hc
      · exact hs.2.2.2 (by omega)
    · simp only [autoOrganizeMoveCalls, hmsg]
      simp [List.filterMap_eq_nil_iff]

/-- The C6 witness's first rule: matches by sender substring. -/
def c6Rule1 : OrganizationRule :=
  { name := "by-sender", condition := { fromContains := some "alice" }
    action := { moveToMailbox := "FromAlice" } }

/-- The C6 witness's second rule: matches by subject substring, overlapping
the first rule's match set. -/
def c6Rule2 : OrganizationRule :=
  { name := "by-subject", condition := { subjectContains := some "offer" }
    action := { moveToMailbox := "Offers" } }

/-- Witness for C6: two rules with overlapping match sets and
`dryRun = true` report nonzero matches and `moved = false` for both,
with no mutation calls issued. -/
theorem C6_autoOrganize_rule_matching_witness :
    getMessages "INBOX" 100 false none none [1, 2]
        (fun s => some (testParsed s)) none 7 =
      .ok [buildEmailMessage 7 1 (testParsed 1),
           buildEmailMessage 7 2 (testParsed 2)] ∧
    ((autoOrganize [c6Rule1, c6Rule2] "INBOX" true none none [1, 2]
        (fun s => some (testParsed s)) none 7 (fun _ => { })).results.map
      (fun r => (r.rule, r.matchedMessages, r.moved))) =
      [("by-sender", 2, false), ("by-subject", 2, false)] ∧
    autoOrganizeMoveCalls [c6Rule1, c6Rule2] "INBOX" true none none [1, 2]
      (fun s => some (testParsed s)) none 7 = [] := by
  have h := C6_autoOrganize_rule_matching [c6Rule1, c6Rule2] "INBOX" true
    [1, 2] (fun s => some (testParsed s)) 7 (fun _ => { })
    [buildEmailMessage 7 1 (testParsed 1), buildEmailMessage 7 2 (testParsed 2)]
    rfl
  exact ⟨rfl, by decide, (h.2.2.2 rfl).2⟩

/-- The C1 fixture: one rule matching one fetched message. -/
def c1Rule : OrganizationRule :=
  { name := "r1", condition := { fromContains := some "alice" }
    action := { moveToMailbox := "Archive" } }

/-- The C1 fixture: the source mailbox holds one message and the IMAP `move`
command fails. -/
def c1World : MoveWorld := { results := [1], moveErr := some "move failed" }

/-- C1 (refuting the claim): at this input the rule's `moveMessages` call
resolves `status:"error"` (the move failed), yet `autoOrganize` reports the
rule's entry with `moved:true` and overall status "success" — because
`moveMessages` never rejects its promise, `autoOrganize`'s catch never runs
and it sets `moved` without inspecting the resolved result's status. -/
theorem C1_failed_move_still_reports_moved :
    (moveMessages c1World ["m1"] "INBOX" "Archive").status = "error" ∧
    ((autoOrganize [c1Rule] "INBOX" false none none [1]
        (fun s => some (testParsed s)) none 7 (fun _ => c1World)).results.map
      (fun r => (r.rule, r.moved))) = [("r1", true)] ∧
    (autoOrganize [c1Rule] "INBOX" false none none [1]
        (fun s => some (testParsed s)) none 7 (fun _ => c1World)).status =
      "success" := by
  exact ⟨rfl, by decide, rfl⟩

/-- C8 (amended): for a found message, an `attachmentIndex` at or past the
attachment count yields `status:"error"` — with the index-out-of-range
message when the message has at least one attachment, and with the
no-attachments message when it has none; an in-range index yields the
attachment payload base64-encoded; and `downloadAttachment` always resolves
a result whose status is "success" or "error", never throwing. -/
theorem C8_downloadAttachment_index_range (messageId : String)
    (attachmentIndex : Nat) (mailbox : String) (results : List Nat)
    (parse : Nat → Option ParsedMail) (fetchErr : Option String)
    (seqno : Nat) (p : ParsedMail)
    (hfind : results.find? (fun s =>
        match parse s with
        | some q => attachmentTargetMatches messageId s q
        | none => false) = some seqno)
    (hp : parse seqno = some p) :
    (1 ≤ p.attachments.length → p.attachments.length ≤ attachmentIndex →
      downloadAttachment messageId attachmentIndex mailbox none none results
          parse fetchErr =
        { status := "error"
          message := "Attachment index " ++ toString attachmentIndex ++
            " out of range. Message has " ++ toString p.attachments.length ++
            " attachments" }) ∧
    (p.attachments.length = 0 →
      downloadAttachment messageId attachmentIndex mailbox none none results
          parse fetchErr =
        { status := "error", message := "No attachments found in the message" }) ∧
    (attachmentIndex < p.attachments.length →
      downloadAttachment messageId attachmentIndex mailbox none none results
          parse fetchErr =
        { status := "success"
          message := "Successfully downloaded attachment '" ++
            jsTemplate (p.attachments.getD attachmentIndex
              { filename := none, contentType := none, size := none,
                content := [] }).filename ++ "'"
          attachment := some
            { filename := jsOr (p.attachments.getD attachmentIndex
                { filename := none, contentType := none, size := none,
                  content := [] }).filename "unknown"
              contentType := jsOr (p.attachments.getD attachmentIndex
                { filename := none, contentType := none, size := none,
                  content := [] }).contentType "application/octet-stream"
              size := (p.attachments.getD attachmentIndex
                { filename := none, contentType := none, size := none,
                  content := [] }).size.getD 0
              data := base64Encode (p.attachments.getD attachmentIndex
                { filename := none, contentType := none, size := none,
                  content := [] }).content } }) ∧
    (∀ (mid : String) (ai : Nat) (mb : String) (oe se : Option String)
        (rs : List Nat) (pr : Nat → Option ParsedMail) (fe : Option String),
      (downloadAttachment mid ai mb oe se rs pr fe).status = "success" ∨
      (downloadAttachment mid ai mb oe se rs pr fe).status = "error") := by
  have hmem : seqno ∈ results := List.mem_of_find?_eq_some hfind
  have hne : results ≠ [] := List.ne_nil_of_mem hmem
  have hred : downloadAttachment messageId attachmentIndex mailbox none none
      results parse fetchErr = attachmentOutcome attachmentIndex p := by
    simp only [downloadAttachment, List.isEmpty_eq_false.mpr hne,
      Bool.false_eq_true, if_false, hfind, hp]
  refine ⟨?_, ?_, ?_, ?_⟩
  · intro h1 h2
    have hc1 : ¬ ((p.attachments.length == 0) = true) := by
      simp only [beq_iff_eq]
      omega
    rw [hred]
    simp only [attachmentOutcome]
    rw [if_neg hc1, if_pos h2]
  · intro h0
    have hc1 : (p.attachments.length == 0) = true := by
      simp only [beq_iff_eq]
      omega
    rw [hred]
    simp only [attachmentOutcome]
    rw [if_pos hc1]
  · intro hlt
    have hc1 : ¬ ((p.attachments.length == 0) = true) := by
      simp only [beq_iff_eq]
      omega
    have hc2 : ¬ (p.attachments.length ≤ attachmentIndex) := by omega
    rw [hred]
    simp only [attachmentOutcome]
    rw [if_neg hc1, if_neg hc2]
  · intro mid ai mb oe se rs pr fe
    unfold downloadAttachment attachmentOutcome
    repeat' split
    all_goals first
      | exact Or.inl rfl
      | exact Or.inr rfl

/-- The C8 witness's attachment: bytes of "hi!" with base64 "aGkh". -/
def c8Att : RawAttachment :=
  { filename := some "a.txt", contentType := some "text/plain"
    size := some 3, content := [104, 105, 33] }

/-- The C8 witness's message: protocol id "m1", one attachment. -/
def c8Parsed : ParsedMail := { messageId := some "m1", attachments := [c8Att] }

/-- The C8 witness's parse oracle. -/
def c8Parse (s : Nat) : Option ParsedMail :=
  if s == 1 then some c8Parsed else none

/-- Witness for C8: an out-of-range index on a one-attachment message, and
an in-range index returning the base64 payload. -/
theorem C8_downloadAttachment_index_range_witness :
    (1 ≤ c8Parsed.attachments.length ∧ c8Parsed.attachments.length ≤ 5) ∧
    downloadAttachment "m1" 5 "INBOX" none none [1] c8Parse none =
      { status := "error"
        message := "Attachment index 5 out of range. Message has 1 attachments" } ∧
    downloadAttachment "m1" 0 "INBOX" none none [1] c8Parse none =
      { status := "success"
        message := "Successfully downloaded attachment 'a.txt'"
        attachment := some
          { filename := "a.txt", contentType := "text/plain", size := 3
            data := "aGkh" } } := by
  have h5 := C8_downloadAttachment_index_range "m1" 5 "INBOX" [1] c8Parse none
    1 c8Parsed rfl rfl
  have h0 := C8_downloadAttachment_index_range "m1" 0 "INBOX" [1] c8Parse none
    1 c8Parsed rfl rfl
  refine ⟨⟨by decide, by decide⟩, ?_, ?_⟩
  · exact (h5.1 (by decide) (by decide)).trans (by decide)
  · exact (h0.2.2.1 (by decide)).trans (by decide)

/-- The C8 counterexample's message: found by id, zero attachments. -/
def c8NoAtt : ParsedMail := { messageId := some "m0" }

/-- C8 counterexample to the claim as stated: a found message with zero
attachments and `attachmentIndex = 0 ≥ 0 =` attachment count resolves
`status:"error"` but with the no-attachments message, which is not an
index-out-of-range message. -/
theorem C8_zero_attachments_message_differs :
    c8NoAtt.attachments.length ≤ 0 ∧
    downloadAttachment "m0" 0 "INBOX" none none [1]
        (fun s => if s == 1 then some c8NoAtt else none) none =
      { status := "error", message := "No attachments found in the message" } ∧
    strIncludes "No attachments found in the message" "out of range" = false := by
  exact ⟨by decide, rfl, by decide⟩

end ICMail
